import Mathlib

/-!
Verification of the credential-lifecycle core (`TokenHandler`) of the
TwitchTS repository, shallowly embedded from `src/unnamed/part_001`.

Modelling decisions:
* JS `undefined` on a field becomes `Option.none`; `utils.isUndefined` /
  `utils.isDefined` on a single value become `Option.isNone` / `Option.isSome`.
* `setInterval` / `clearInterval` are modelled with an explicit per-slot
  ledger of timer entries (`TimerEntry`): `setInterval` appends a fresh
  active entry and returns its id, `clearInterval id` deactivates every
  entry with that id.  The JS code never clears the stored handle field
  (`_refreshTokenInterval` / `_appAccessTokenInterval`), only cancels the
  timer it points at; the model keeps that distinction.
* The single transport collaborator (`axios.post` against the token
  endpoint) is an oracle argument `resp : Option TokenResponse`: `some r`
  is a 2xx response carrying `access_token` / `expires_in`, `none` is a
  thrown transport error (caught by the surrounding `try`/`catch`).
  Each function counts the transport calls it actually performs
  (`appCalls` / `userCalls`).
* `console.error` / `console.info` diagnostics append to `log`.
* All public operations are total state transformers (the source catches
  every runtime error inside the renewal routines); only the constructor
  can fail, with the zod `ValidationError`, modelled as `Except`.
-/

/-- A successful body from the identity provider: `access_token` and
`expires_in` (seconds, user-slot grants only). -/
structure TokenResponse where
  accessToken : String
  expiresIn : Int
deriving DecidableEq

/-- One timer ever created for a slot: its handle id, the millisecond delay
it was armed with, and whether it is still active. -/
structure TimerEntry where
  id : Nat
  delay : Int
  active : Bool
deriving DecidableEq

/-- The state of a `TokenHandler` instance: its fields, plus the per-slot
timer ledgers, transport-call counters and the diagnostic log. -/
structure HandlerState where
  clientId : String
  clientSecret : Option String := none
  appAccessToken : Option String := none
  refreshToken : Option String := none
  userAccessToken : Option String := none
  refreshTokenInterval : Option Nat := none
  appAccessTokenInterval : Option Nat := none
  initUserRefresh : Bool := false
  initAppRefresh : Bool := false
  userTimers : List TimerEntry := []
  appTimers : List TimerEntry := []
  userNextId : Nat := 0
  appNextId : Nat := 0
  userCalls : Nat := 0
  appCalls : Nat := 0
  log : List String := []
deriving DecidableEq

/-- `clearInterval h`: deactivate every timer entry carrying handle `h`. -/
def clearTimer (timers : List TimerEntry) (h : Nat) : List TimerEntry :=
  timers.map (fun t => if t.id = h then { t with active := false } else t)

/-- The recurring idiom `if (handle) clearInterval(handle)`: cancel the
timer the stored handle points at, if the handle field is set. -/
def clearStoredSlot (timers : List TimerEntry) (handle : Option Nat) :
    List TimerEntry :=
  match handle with
  | some h => clearTimer timers h
  | none => timers

/-- Optional tokens bundle of the constructor. -/
structure Tokens where
  userAccessToken : Option String := none
  appAccessToken : Option String := none
  refreshToken : Option String := none
deriving DecidableEq

/-- Optional options bundle of the constructor. -/
structure HandlerOptions where
  clientSecret : Option String := none
  refreshAppAccessToken : Option Bool := none
  refreshUserAccessToken : Option Bool := none
deriving DecidableEq

def msgNoAnyToken : String :=
  "You did not provide any token or the client secret!"

def msgNoAppCapability : String :=
  "No App Access Token or client secret provided."

def msgNoUserCapability : String :=
  "No User Access Token or Refresh Token provided."

def msgRefreshUserMissingSecret : String :=
  "Unable to start User Access token refresh interval due to missing refresh token!"

def msgRefreshAppMissingSecret : String :=
  "Unable to start App Access token refresh interval due to missing client secret!"

def msgStartUserFailed : String :=
  "Failed to start User Access Token refresh interval due to missing refresh token!"

def msgStartAppFailed : String :=
  "Failed to start App Access Token refresh interval due to missing client secret!"

def msgCaughtTransport : String :=
  "TransportError"

/-- The `TokenHandler` constructor.  `zod.string().min(10).parse(clientId)`
throws a `ValidationError` exactly when the identifier is shorter than 10
characters.  Note: the source assigns `_clientSecret`, `_userAccessToken`
and `_appAccessToken` from the arguments but never assigns
`_refreshToken`, so that field stays `undefined` (`none`) even when
`tokens.refreshToken` was supplied. -/
def mkTokenHandler (clientId : String) (tokens : Tokens)
    (options : HandlerOptions) : Except String HandlerState :=
  if clientId.length < 10 then
    .error "ValidationError"
  else
    let log0 : List String :=
      if tokens.appAccessToken.isNone && options.clientSecret.isNone
          && tokens.userAccessToken.isNone && tokens.refreshToken.isNone then
        [msgNoAnyToken]
      else
        (if tokens.appAccessToken.isNone && options.clientSecret.isNone then
          [msgNoAppCapability] else [])
        ++ (if tokens.userAccessToken.isNone && tokens.refreshToken.isNone then
          [msgNoUserCapability] else [])
    .ok {
      clientId := clientId
      clientSecret := options.clientSecret
      appAccessToken := tokens.appAccessToken
      refreshToken := none
      userAccessToken := tokens.userAccessToken
      refreshTokenInterval := none
      appAccessTokenInterval := none
      initUserRefresh :=
        tokens.refreshToken.isSome && options.refreshUserAccessToken.getD false
      initAppRefresh :=
        options.clientSecret.isSome && options.refreshAppAccessToken.getD false
      userTimers := []
      appTimers := []
      userNextId := 0
      appNextId := 0
      userCalls := 0
      appCalls := 0
      log := log0 }

/-- `refreshAppAccessToken(refreshOnce?)`: guard on the client secret, one
transport call, store the token, and unless single-shot re-arm the
recurring timer with the fixed ten-day delay `1000*60*60*24*10`.
A thrown transport error (`resp = none`) is caught and logged. -/
def refreshAppAccessToken (refreshOnce : Option Bool)
    (resp : Option TokenResponse) (s : HandlerState) : HandlerState :=
  if s.clientSecret.isNone then
    { s with log := s.log ++ [msgRefreshAppMissingSecret] }
  else
    let s1 := { s with appCalls := s.appCalls + 1 }
    match resp with
    | none => { s1 with log := s1.log ++ [msgCaughtTransport] }
    | some r =>
      let s2 := { s1 with appAccessToken := some r.accessToken }
      if refreshOnce.isSome then s2
      else
        { s2 with
          appTimers := clearStoredSlot s2.appTimers s2.appAccessTokenInterval
            ++ [⟨s2.appNextId, 864000000, true⟩]
          appAccessTokenInterval := some s2.appNextId
          appNextId := s2.appNextId + 1 }

/-- `refreshUserAccessToken(refreshOnce?)`: guard on the refresh token, one
transport call, store the token, and unless single-shot re-arm the
recurring timer with delay `expires_in * 1000 - 1000*60*60` (one hour
before expiry, with no clamping). -/
def refreshUserAccessToken (refreshOnce : Option Bool)
    (resp : Option TokenResponse) (s : HandlerState) : HandlerState :=
  if s.refreshToken.isNone then
    { s with log := s.log ++ [msgRefreshUserMissingSecret] }
  else
    let s1 := { s with userCalls := s.userCalls + 1 }
    match resp with
    | none => { s1 with log := s1.log ++ [msgCaughtTransport] }
    | some r =>
      let s2 := { s1 with userAccessToken := some r.accessToken }
      if refreshOnce.isSome then s2
      else
        let expiresIn : Int := r.expiresIn * 1000
        { s2 with
          userTimers := clearStoredSlot s2.userTimers s2.refreshTokenInterval
            ++ [⟨s2.userNextId, expiresIn - 3600000, true⟩]
          refreshTokenInterval := some s2.userNextId
          userNextId := s2.userNextId + 1 }

/-- `init()`: run the initial app renewal, then the initial user renewal,
each gated on the flag computed at construction. -/
def init (appResp userResp : Option TokenResponse) (s : HandlerState) :
    HandlerState :=
  let s1 := if s.initAppRefresh then refreshAppAccessToken none appResp s else s
  if s1.initUserRefresh then refreshUserAccessToken none userResp s1 else s1

/-- `stopUserTokenRefresh()`: cancel the timer behind the stored handle, if
any; the handle field itself is not cleared. -/
def stopUserTokenRefresh (s : HandlerState) : HandlerState :=
  { s with userTimers := clearStoredSlot s.userTimers s.refreshTokenInterval }

/-- `stopAppTokenRefresh()`: cancel the timer behind the stored handle, if
any; the handle field itself is not cleared. -/
def stopAppTokenRefresh (s : HandlerState) : HandlerState :=
  { s with appTimers := clearStoredSlot s.appTimers s.appAccessTokenInterval }

/-- `startUserTokenRefresh()`: defensively cancel the stored handle, then
renew (which re-arms the timer) if the refresh token is present, else log. -/
def startUserTokenRefresh (resp : Option TokenResponse) (s : HandlerState) :
    HandlerState :=
  let s1 := { s with userTimers := clearStoredSlot s.userTimers s.refreshTokenInterval }
  if s1.refreshToken.isSome then
    refreshUserAccessToken none resp s1
  else
    { s1 with log := s1.log ++ [msgStartUserFailed] }

/-- `startAppTokenRefresh()`: defensively cancel the stored handle, then
renew (which re-arms the timer) if the client secret is present, else log. -/
def startAppTokenRefresh (resp : Option TokenResponse) (s : HandlerState) :
    HandlerState :=
  let s1 := { s with appTimers := clearStoredSlot s.appTimers s.appAccessTokenInterval }
  if s1.clientSecret.isSome then
    refreshAppAccessToken none resp s1
  else
    { s1 with log := s1.log ++ [msgStartAppFailed] }

/-- `renewAppAccessToken()` = `refreshAppAccessToken(true)`. -/
def renewAppAccessToken (resp : Option TokenResponse) (s : HandlerState) :
    HandlerState :=
  refreshAppAccessToken (some true) resp s

/-- `renewUserAccessToken()` = `refreshUserAccessToken(true)`. -/
def renewUserAccessToken (resp : Option TokenResponse) (s : HandlerState) :
    HandlerState :=
  refreshUserAccessToken (some true) resp s

/-- `set refreshToken(token)`: when `token` is defined (`!isUndefined`),
stop the user refresh interval and set `_refreshToken = undefined`;
when `token` is undefined, store it (i.e. `undefined`) and, if a value was
previously set, call `refreshUserAccessToken()`. -/
def setRefreshToken (token : Option String) (resp : Option TokenResponse)
    (s : HandlerState) : HandlerState :=
  if token.isSome then
    let s1 := stopUserTokenRefresh s
    { s1 with refreshToken := none }
  else
    let tokenWasSet := s.refreshToken.isSome
    let s1 := { s with refreshToken := token }
    if tokenWasSet then refreshUserAccessToken none resp s1 else s1

/-- `set clientSecret(secret)`: when `secret` is defined (`!isUndefined`),
stop the app refresh interval and set `_clientSecret = undefined`;
when `secret` is undefined, store it (i.e. `undefined`) and, if a value was
previously set, call `refreshAppAccessToken()`. -/
def setClientSecret (secret : Option String) (resp : Option TokenResponse)
    (s : HandlerState) : HandlerState :=
  if secret.isSome then
    let s1 := stopAppTokenRefresh s
    { s1 with clientSecret := none }
  else
    let secretWasSet := s.clientSecret.isSome
    let s1 := { s with clientSecret := secret }
    if secretWasSet then refreshAppAccessToken none resp s1 else s1

/-- Number of still-active timers in a slot ledger. -/
def countActive : List TimerEntry → Nat
  | [] => 0
  | t :: r => (if t.active then 1 else 0) + countActive r

/-- One invocation of a public operation (or of a scheduled timer tick),
together with the transport oracle answers it consumes. -/
inductive Op
  | opInit (appResp userResp : Option TokenResponse)
  | startUser (resp : Option TokenResponse)
  | startApp (resp : Option TokenResponse)
  | stopUser
  | stopApp
  | renewUser (resp : Option TokenResponse)
  | renewApp (resp : Option TokenResponse)
  | setRT (token : Option String) (resp : Option TokenResponse)
  | setCS (secret : Option String) (resp : Option TokenResponse)
  | tickUser (resp : Option TokenResponse)
  | tickApp (resp : Option TokenResponse)
deriving DecidableEq

/-- Apply one operation to the handler state.  A timer tick runs the
corresponding private refresh routine with no `refreshOnce` argument,
exactly as `setInterval(this.refreshXAccessToken.bind(this), ...)` does. -/
def applyOp : Op → HandlerState → HandlerState
  | .opInit a u, s => init a u s
  | .startUser r, s => startUserTokenRefresh r s
  | .startApp r, s => startAppTokenRefresh r s
  | .stopUser, s => stopUserTokenRefresh s
  | .stopApp, s => stopAppTokenRefresh s
  | .renewUser r, s => renewUserAccessToken r s
  | .renewApp r, s => renewAppAccessToken r s
  | .setRT t r, s => setRefreshToken t r s
  | .setCS c r, s => setClientSecret c r s
  | .tickUser r, s => refreshUserAccessToken none r s
  | .tickApp r, s => refreshAppAccessToken none r s

/-- Run a sequence of operations from left to right. -/
def runOps (ops : List Op) (s : HandlerState) : HandlerState :=
  ops.foldl (fun st op => applyOp op st) s

/-- Well-formedness of one slot's timer bookkeeping: every ledger entry has
an id below the id counter, every still-active entry is the one the stored
handle points at, and at most one entry is active. -/
def slotInv (timers : List TimerEntry) (handle : Option Nat) (nextId : Nat) : Prop :=
  (∀ t ∈ timers, t.id < nextId) ∧
  (∀ t ∈ timers, t.active = true → handle = some t.id) ∧
  countActive timers ≤ 1

/-- Both slots are well formed. -/
def HandlerInv (s : HandlerState) : Prop :=
  slotInv s.userTimers s.refreshTokenInterval s.userNextId ∧
  slotInv s.appTimers s.appAccessTokenInterval s.appNextId

/-! ## Helper lemmas about the timer ledger -/

theorem countActive_cons (t : TimerEntry) (r : List TimerEntry) :
    countActive (t :: r) = (if t.active then 1 else 0) + countActive r := rfl

theorem clearTimer_cons (a : TimerEntry) (r : List TimerEntry) (h : Nat) :
    clearTimer (a :: r) h
      = (if a.id = h then { a with active := false } else a) :: clearTimer r h := rfl

theorem countActive_clearTimer_le (l : List TimerEntry) (h : Nat) :
    countActive (clearTimer l h) ≤ countActive l := by
  induction l with
  | nil => simp [clearTimer, countActive]
  | cons a r ih =>
    rw [clearTimer_cons, countActive_cons, countActive_cons]
    by_cases hid : a.id = h
    · rw [if_pos hid]
      simp only [Bool.false_eq_true, if_false]
      omega
    · rw [if_neg hid]
      omega

theorem mem_clearTimer (l : List TimerEntry) (h : Nat) (t : TimerEntry)
    (ht : t ∈ clearTimer l h) :
    ∃ u ∈ l, t.id = u.id ∧ (t.active = true → u.active = true) := by
  simp only [clearTimer, List.mem_map] at ht
  obtain ⟨u, hu, he⟩ := ht
  by_cases hid : u.id = h
  · rw [if_pos hid] at he
    exact ⟨u, hu, by rw [← he], by rw [← he]; simp⟩
  · rw [if_neg hid] at he
    exact ⟨u, hu, by rw [← he], by rw [← he]; exact fun hx => hx⟩

theorem clearTimer_all_inactive (l : List TimerEntry) (h : Nat)
    (hall : ∀ t ∈ l, t.active = true → t.id = h) :
    ∀ t ∈ clearTimer l h, t.active = false := by
  intro t ht
  simp only [clearTimer, List.mem_map] at ht
  obtain ⟨u, hu, he⟩ := ht
  by_cases hid : u.id = h
  · rw [if_pos hid] at he
    rw [← he]
  · rw [if_neg hid] at he
    rw [← he]
    by_cases ha : u.active = true
    · exact absurd (hall u hu ha) hid
    · simpa using ha

theorem countActive_of_all_inactive (l : List TimerEntry)
    (hall : ∀ t ∈ l, t.active = false) : countActive l = 0 := by
  induction l with
  | nil => rfl
  | cons a r ih =>
    rw [countActive_cons, hall a (List.mem_cons_self a r)]
    simp only [Bool.false_eq_true, if_false, Nat.zero_add]
    exact ih fun t ht => hall t (List.mem_cons_of_mem a ht)

theorem countActive_append (l1 l2 : List TimerEntry) :
    countActive (l1 ++ l2) = countActive l1 + countActive l2 := by
  induction l1 with
  | nil => simp [countActive]
  | cons a r ih =>
    rw [List.cons_append, countActive_cons, countActive_cons, ih]
    omega

theorem slotInv_clearTimer (l : List TimerEntry) (h : Option Nat) (n : Nat)
    (x : Nat) (hinv : slotInv l h n) : slotInv (clearTimer l x) h n := by
  obtain ⟨hid, hact, hcnt⟩ := hinv
  refine ⟨?_, ?_, le_trans (countActive_clearTimer_le l x) hcnt⟩
  · intro t ht
    obtain ⟨u, hu, hidu, _⟩ := mem_clearTimer l x t ht
    rw [hidu]
    exact hid u hu
  · intro t ht hta
    obtain ⟨u, hu, hidu, himp⟩ := mem_clearTimer l x t ht
    rw [hidu]
    exact hact u hu (himp hta)

theorem slotInv_arm (l : List TimerEntry) (h : Option Nat) (n : Nat) (d : Int)
    (hinv : slotInv l h n) :
    slotInv (clearStoredSlot l h ++ [⟨n, d, true⟩]) (some n) (n + 1) := by
  obtain ⟨hid, hact, _⟩ := hinv
  unfold clearStoredSlot
  have hcleared : ∀ t ∈ (match h with
      | some hd => clearTimer l hd
      | none => l), t.active = false := by
    cases h with
    | none =>
      intro t ht
      by_cases ha : t.active = true
      · exact absurd (hact t ht ha) (by simp)
      · simpa using ha
    | some hd =>
      exact clearTimer_all_inactive l hd
        (fun t ht hta => by have hx := hact t ht hta; injection hx; omega)
  have hids : ∀ t ∈ (match h with
      | some hd => clearTimer l hd
      | none => l), t.id < n := by
    cases h with
    | none => exact hid
    | some hd =>
      intro t ht
      obtain ⟨u, hu, hidu, _⟩ := mem_clearTimer l hd t ht
      rw [hidu]
      exact hid u hu
  refine ⟨?_, ?_, ?_⟩
  · intro t ht
    rcases List.mem_append.mp ht with hl | hr
    · exact Nat.lt_succ_of_lt (hids t hl)
    · simp only [List.mem_singleton] at hr
      rw [hr]
      exact Nat.lt_succ_self n
  · intro t ht hta
    rcases List.mem_append.mp ht with hl | hr
    · exact absurd hta (by simp [hcleared t hl])
    · simp only [List.mem_singleton] at hr
      rw [hr]
  · rw [countActive_append, countActive_of_all_inactive _ hcleared]
    simp [countActive]

theorem slotInv_clearStored (l : List TimerEntry) (h : Option Nat) (n : Nat)
    (x : Option Nat) (hinv : slotInv l h n) :
    slotInv (clearStoredSlot l x) h n := by
  cases x with
  | none => exact hinv
  | some hd => exact slotInv_clearTimer l h n hd hinv

theorem inv_refreshApp (o : Option Bool) (resp : Option TokenResponse)
    (s : HandlerState) (hinv : HandlerInv s) :
    HandlerInv (refreshAppAccessToken o resp s) := by
  obtain ⟨hu, ha⟩ := hinv
  unfold refreshAppAccessToken
  by_cases hcs : s.clientSecret.isNone = true
  · simp only [hcs, if_true]
    exact ⟨hu, ha⟩
  · simp only [hcs, if_false]
    cases resp with
    | none => exact ⟨hu, ha⟩
    | some r =>
      by_cases ho : o.isSome = true
      · simp only [ho, if_true]
        exact ⟨hu, ha⟩
      · simp only [ho, if_false]
        exact ⟨hu, slotInv_arm s.appTimers s.appAccessTokenInterval s.appNextId
          864000000 ha⟩

theorem inv_refreshUser (o : Option Bool) (resp : Option TokenResponse)
    (s : HandlerState) (hinv : HandlerInv s) :
    HandlerInv (refreshUserAccessToken o resp s) := by
  obtain ⟨hu, ha⟩ := hinv
  unfold refreshUserAccessToken
  by_cases hrt : s.refreshToken.isNone = true
  · simp only [hrt, if_true]
    exact ⟨hu, ha⟩
  · simp only [hrt, if_false]
    cases resp with
    | none => exact ⟨hu, ha⟩
    | some r =>
      by_cases ho : o.isSome = true
      · simp only [ho, if_true]
        exact ⟨hu, ha⟩
      · simp only [ho, if_false]
        exact ⟨slotInv_arm s.userTimers s.refreshTokenInterval s.userNextId
          (r.expiresIn * 1000 - 3600000) hu, ha⟩

theorem inv_stopUser (s : HandlerState) (hinv : HandlerInv s) :
    HandlerInv (stopUserTokenRefresh s) :=
  ⟨slotInv_clearStored _ _ _ _ hinv.1, hinv.2⟩

theorem inv_stopApp (s : HandlerState) (hinv : HandlerInv s) :
    HandlerInv (stopAppTokenRefresh s) :=
  ⟨hinv.1, slotInv_clearStored _ _ _ _ hinv.2⟩

theorem inv_startUser (resp : Option TokenResponse) (s : HandlerState)
    (hinv : HandlerInv s) : HandlerInv (startUserTokenRefresh resp s) := by
  obtain ⟨hu, ha⟩ := hinv
  unfold startUserTokenRefresh
  have h1 : HandlerInv
      { s with userTimers := clearStoredSlot s.userTimers s.refreshTokenInterval } :=
    ⟨slotInv_clearStored _ _ _ _ hu, ha⟩
  by_cases hr : s.refreshToken.isSome = true
  · simp only [hr, if_true]
    exact inv_refreshUser none resp _ h1
  · simp only [hr, if_false]
    exact ⟨h1.1, h1.2⟩

theorem inv_startApp (resp : Option TokenResponse) (s : HandlerState)
    (hinv : HandlerInv s) : HandlerInv (startAppTokenRefresh resp s) := by
  obtain ⟨hu, ha⟩ := hinv
  unfold startAppTokenRefresh
  have h1 : HandlerInv
      { s with appTimers := clearStoredSlot s.appTimers s.appAccessTokenInterval } :=
    ⟨hu, slotInv_clearStored _ _ _ _ ha⟩
  by_cases hr : s.clientSecret.isSome = true
  · simp only [hr, if_true]
    exact inv_refreshApp none resp _ h1
  · simp only [hr, if_false]
    exact ⟨h1.1, h1.2⟩

theorem inv_setRT (token : Option String) (resp : Option TokenResponse)
    (s : HandlerState) (hinv : HandlerInv s) :
    HandlerInv (setRefreshToken token resp s) := by
  unfold setRefreshToken
  by_cases ht : token.isSome = true
  · simp only [ht, if_true]
    have h1 := inv_stopUser s hinv
    exact ⟨h1.1, h1.2⟩
  · simp only [ht, if_false]
    by_cases hw : s.refreshToken.isSome = true
    · simp only [hw, if_true]
      exact inv_refreshUser none resp _ ⟨hinv.1, hinv.2⟩
    · simp only [hw, if_false]
      exact ⟨hinv.1, hinv.2⟩

theorem inv_setCS (secret : Option String) (resp : Option TokenResponse)
    (s : HandlerState) (hinv : HandlerInv s) :
    HandlerInv (setClientSecret secret resp s) := by
  unfold setClientSecret
  by_cases ht : secret.isSome = true
  · simp only [ht, if_true]
    have h1 := inv_stopApp s hinv
    exact ⟨h1.1, h1.2⟩
  · simp only [ht, if_false]
    by_cases hw : s.clientSecret.isSome = true
    · simp only [hw, if_true]
      exact inv_refreshApp none resp _ ⟨hinv.1, hinv.2⟩
    · simp only [hw, if_false]
      exact ⟨hinv.1, hinv.2⟩

theorem inv_init (a u : Option TokenResponse) (s : HandlerState)
    (hinv : HandlerInv s) : HandlerInv (init a u s) := by
  unfold init
  by_cases hA : s.initAppRefresh = true
  · simp only [hA, eq_self_iff_true, if_true]
    by_cases hU : (refreshAppAccessToken none a s).initUserRefresh = true
    · simp only [hU, eq_self_iff_true, if_true]
      exact inv_refreshUser none u _ (inv_refreshApp none a s hinv)
    · simp only [hU, Bool.false_eq_true, if_false]
      exact inv_refreshApp none a s hinv
  · simp only [hA, Bool.false_eq_true, if_false]
    by_cases hU : s.initUserRefresh = true
    · simp only [hU, eq_self_iff_true, if_true]
      exact inv_refreshUser none u s hinv
    · simp only [hU, Bool.false_eq_true, if_false]
      exact hinv

theorem inv_applyOp (op : Op) (s : HandlerState) (hinv : HandlerInv s) :
    HandlerInv (applyOp op s) := by
  cases op with
  | opInit a u => exact inv_init a u s hinv
  | startUser r => exact inv_startUser r s hinv
  | startApp r => exact inv_startApp r s hinv
  | stopUser => exact inv_stopUser s hinv
  | stopApp => exact inv_stopApp s hinv
  | renewUser r => exact inv_refreshUser (some true) r s hinv
  | renewApp r => exact inv_refreshApp (some true) r s hinv
  | setRT t r => exact inv_setRT t r s hinv
  | setCS c r => exact inv_setCS c r s hinv
  | tickUser r => exact inv_refreshUser none r s hinv
  | tickApp r => exact inv_refreshApp none r s hinv

theorem inv_runOps (ops : List Op) (s : HandlerState) (hinv : HandlerInv s) :
    HandlerInv (runOps ops s) := by
  induction ops generalizing s with
  | nil => exact hinv
  | cons op rest ih => exact ih (applyOp op s) (inv_applyOp op s hinv)

theorem inv_mkTokenHandler (cid : String) (tokens : Tokens)
    (options : HandlerOptions) (s0 : HandlerState)
    (h : mkTokenHandler cid tokens options = .ok s0) : HandlerInv s0 := by
  unfold mkTokenHandler at h
  by_cases hlen : cid.length < 10
  · rw [if_pos hlen] at h
    exact absurd h (by simp)
  · rw [if_neg hlen] at h
    injection h with h2
    rw [← h2]
    refine ⟨⟨?_, ?_, ?_⟩, ⟨?_, ?_, ?_⟩⟩ <;> simp [countActive]

/-! ## Exact result equations for failure paths and single-shot renewals -/

theorem refreshApp_fail_eq (o : Option Bool) (s : HandlerState) :
    refreshAppAccessToken o none s =
      if s.clientSecret.isNone then
        { s with log := s.log ++ [msgRefreshAppMissingSecret] }
      else
        { s with appCalls := s.appCalls + 1, log := s.log ++ [msgCaughtTransport] } := by
  unfold refreshAppAccessToken
  by_cases hcs : s.clientSecret.isNone = true
  · simp only [hcs, eq_self_iff_true, if_true]
  · simp only [hcs, Bool.false_eq_true, if_false]

theorem refreshUser_fail_eq (o : Option Bool) (s : HandlerState) :
    refreshUserAccessToken o none s =
      if s.refreshToken.isNone then
        { s with log := s.log ++ [msgRefreshUserMissingSecret] }
      else
        { s with userCalls := s.userCalls + 1, log := s.log ++ [msgCaughtTransport] } := by
  unfold refreshUserAccessToken
  by_cases hrt : s.refreshToken.isNone = true
  · simp only [hrt, eq_self_iff_true, if_true]
  · simp only [hrt, Bool.false_eq_true, if_false]

theorem renewApp_eq (resp : Option TokenResponse) (s : HandlerState) :
    renewAppAccessToken resp s =
      if s.clientSecret.isNone then
        { s with log := s.log ++ [msgRefreshAppMissingSecret] }
      else
        match resp with
        | none => { s with appCalls := s.appCalls + 1, log := s.log ++ [msgCaughtTransport] }
        | some r => { s with appCalls := s.appCalls + 1,
                             appAccessToken := some r.accessToken } := by
  unfold renewAppAccessToken refreshAppAccessToken
  by_cases hcs : s.clientSecret.isNone = true
  · simp only [hcs, eq_self_iff_true, if_true]
  · simp only [hcs, Bool.false_eq_true, if_false]
    cases resp with
    | none => rfl
    | some r => rfl

theorem renewUser_eq (resp : Option TokenResponse) (s : HandlerState) :
    renewUserAccessToken resp s =
      if s.refreshToken.isNone then
        { s with log := s.log ++ [msgRefreshUserMissingSecret] }
      else
        match resp with
        | none => { s with userCalls := s.userCalls + 1, log := s.log ++ [msgCaughtTransport] }
        | some r => { s with userCalls := s.userCalls + 1,
                             userAccessToken := some r.accessToken } := by
  unfold renewUserAccessToken refreshUserAccessToken
  by_cases hrt : s.refreshToken.isNone = true
  · simp only [hrt, eq_self_iff_true, if_true]
  · simp only [hrt, Bool.false_eq_true, if_false]
    cases resp with
    | none => rfl
    | some r => rfl

/-! ## Claim theorems -/

/-- C1: the claim says that assigning `undefined` to a slot's renewal-secret
setter cancels any active timer for that slot, so that afterwards no timer
is active.  The code does the opposite: `set clientSecret(undefined)` skips
the `stopAppTokenRefresh` branch (the guard `!isUndefined(secret)` is
inverted), so after clearing the secret while the app-slot timer is running,
the stored secret is cleared but the timer is still active. -/
theorem c1_clear_secret_leaves_timer_active :
    (mkTokenHandler "0123456789" {} { clientSecret := some "sec" }).toOption.map
      (fun s0 =>
        let s1 := startAppTokenRefresh (some ⟨"apptok", 0⟩) s0
        let s2 := setClientSecret none none s1
        (s2.clientSecret, countActive s1.appTimers, countActive s2.appTimers))
      = some (none, 1, 1) := rfl

/-- C2: the claim says that assigning a new concrete value to a slot's
renewal-secret setter (when a previous value existed) stores the new value
and triggers a renewal.  The code instead takes the inverted `!isUndefined`
branch: it cancels the timer, sets the stored secret to `undefined`, makes
no transport call, and returns — the stored secret is `none` (not the new
value), the cached token is unchanged, and no renewal happened. -/
theorem c2_assign_new_secret_clears_and_skips_renewal :
    (mkTokenHandler "0123456789" {} { clientSecret := some "oldsec" }).toOption.map
      (fun s0 =>
        let s1 := startAppTokenRefresh (some ⟨"apptok", 0⟩) s0
        let s2 := setClientSecret (some "newsec") (some ⟨"apptok2", 0⟩) s1
        (s2.clientSecret, s2.appAccessToken, s2.appCalls - s1.appCalls,
          countActive s2.appTimers))
      = some (none, some "apptok", 0, 0) := rfl

/-- C3 counterexample: with `expires_in = 1800` (≤ the one-hour margin) a
successful non-single-shot user renewal installs a timer whose delay is
`1800*1000 - 3600000 = -1800000` ms — not strictly positive, refuting the
claimed clamping to a minimum positive delay. -/
theorem c3_no_clamp_counterexample :
    (refreshUserAccessToken none (some ⟨"tok", 1800⟩)
        { clientId := "0123456789", refreshToken := some "refreshsecret" }).userTimers
      = [⟨0, -1800000, true⟩] ∧ ((-1800000 : Int) ≤ 0) := ⟨rfl, by decide⟩

/-- C3 amended: for a successful non-single-shot user renewal reporting
`expiresInSeconds = E`, the next timer's delay is exactly
`E*1000 - 3600000` ms with no clamping: strictly positive and at most `E`
seconds when `E > 3600`, and zero or negative when `E ≤ 3600`. -/
theorem c3_amended_delay_formula (s : HandlerState) (rt : String)
    (r : TokenResponse) (h : s.refreshToken = some rt) :
    (refreshUserAccessToken none (some r) s).userTimers
        = clearStoredSlot s.userTimers s.refreshTokenInterval
            ++ [⟨s.userNextId, r.expiresIn * 1000 - 3600000, true⟩]
      ∧ (refreshUserAccessToken none (some r) s).refreshTokenInterval
          = some s.userNextId
      ∧ (3600 < r.expiresIn →
          0 < r.expiresIn * 1000 - 3600000
            ∧ r.expiresIn * 1000 - 3600000 ≤ r.expiresIn * 1000)
      ∧ (r.expiresIn ≤ 3600 → r.expiresIn * 1000 - 3600000 ≤ 0) := by
  refine ⟨?_, ?_, fun hE => ⟨by omega, by omega⟩, fun hE => by omega⟩ <;>
    · unfold refreshUserAccessToken
      simp [h]

/-- C3 amended, witness: at `E = 7200` the installed delay is exactly one
hour (`7200*1000 - 3600000 = 3600000` ms). -/
theorem c3_amended_delay_formula_witness :
    (refreshUserAccessToken none (some ⟨"tok", 7200⟩)
        { clientId := "0123456789", refreshToken := some "refreshsecret" }).userTimers
      = [⟨0, 3600000, true⟩] := by
  have h := c3_amended_delay_formula
    { clientId := "0123456789", refreshToken := some "refreshsecret" }
    "refreshsecret" ⟨"tok", 7200⟩ rfl
  rw [h.1]
  rfl

/-- C4: for every renewal attempt (automatic tick, start-refresh, or
renew-once) of either slot whose transport call fails (`resp = none`,
modelling a thrown `TransportError` that the routine catches), both cached
token values are unchanged and no new timer is created (both per-slot timer
id counters are unchanged).  All six entry points are total Lean functions,
mirroring that the caught error never propagates to the caller. -/
theorem c4_transport_failure_frame (s : HandlerState) :
    ((refreshAppAccessToken none none s).appAccessToken = s.appAccessToken
      ∧ (refreshAppAccessToken none none s).userAccessToken = s.userAccessToken
      ∧ (refreshAppAccessToken none none s).appNextId = s.appNextId
      ∧ (refreshAppAccessToken none none s).userNextId = s.userNextId)
    ∧ ((refreshUserAccessToken none none s).appAccessToken = s.appAccessToken
      ∧ (refreshUserAccessToken none none s).userAccessToken = s.userAccessToken
      ∧ (refreshUserAccessToken none none s).appNextId = s.appNextId
      ∧ (refreshUserAccessToken none none s).userNextId = s.userNextId)
    ∧ ((startAppTokenRefresh none s).appAccessToken = s.appAccessToken
      ∧ (startAppTokenRefresh none s).userAccessToken = s.userAccessToken
      ∧ (startAppTokenRefresh none s).appNextId = s.appNextId
      ∧ (startAppTokenRefresh none s).userNextId = s.userNextId)
    ∧ ((startUserTokenRefresh none s).appAccessToken = s.appAccessToken
      ∧ (startUserTokenRefresh none s).userAccessToken = s.userAccessToken
      ∧ (startUserTokenRefresh none s).appNextId = s.appNextId
      ∧ (startUserTokenRefresh none s).userNextId = s.userNextId)
    ∧ ((renewAppAccessToken none s).appAccessToken = s.appAccessToken
      ∧ (renewAppAccessToken none s).userAccessToken = s.userAccessToken
      ∧ (renewAppAccessToken none s).appNextId = s.appNextId
      ∧ (renewAppAccessToken none s).userNextId = s.userNextId)
    ∧ ((renewUserAccessToken none s).appAccessToken = s.appAccessToken
      ∧ (renewUserAccessToken none s).userAccessToken = s.userAccessToken
      ∧ (renewUserAccessToken none s).appNextId = s.appNextId
      ∧ (renewUserAccessToken none s).userNextId = s.userNextId) := by
  have hRA : ∀ t : HandlerState,
      (refreshAppAccessToken none none t).appAccessToken = t.appAccessToken
        ∧ (refreshAppAccessToken none none t).userAccessToken = t.userAccessToken
        ∧ (refreshAppAccessToken none none t).appNextId = t.appNextId
        ∧ (refreshAppAccessToken none none t).userNextId = t.userNextId := by
    intro t
    rw [refreshApp_fail_eq]
    by_cases h : t.clientSecret.isNone = true <;> simp [h]
  have hRU : ∀ t : HandlerState,
      (refreshUserAccessToken none none t).appAccessToken = t.appAccessToken
        ∧ (refreshUserAccessToken none none t).userAccessToken = t.userAccessToken
        ∧ (refreshUserAccessToken none none t).appNextId = t.appNextId
        ∧ (refreshUserAccessToken none none t).userNextId = t.userNextId := by
    intro t
    rw [refreshUser_fail_eq]
    by_cases h : t.refreshToken.isNone = true <;> simp [h]
  refine ⟨hRA s, hRU s, ?_, ?_, ?_, ?_⟩
  · unfold startAppTokenRefresh
    by_cases h : s.clientSecret.isSome = true
    · simp only [h, eq_self_iff_true, if_true]
      exact hRA _
    · simp [h]
  · unfold startUserTokenRefresh
    by_cases h : s.refreshToken.isSome = true
    · simp only [h, eq_self_iff_true, if_true]
      exact hRU _
    · simp [h]
  · rw [renewApp_eq]
    by_cases h : s.clientSecret.isNone = true <;> simp [h]
  · rw [renewUser_eq]
    by_cases h : s.refreshToken.isNone = true <;> simp [h]

/-- C5 counterexample: a reachable state in which the app slot's renewal
secret is absent but its timer is still active (obtained through the
inverted secret-setter, see C1): calling `startAppTokenRefresh` there is
not a pure no-op — its defensive `clearInterval` cancels the leftover
active timer, changing slot state (active count drops from 1 to 0). -/
theorem c5_start_not_noop_counterexample :
    (mkTokenHandler "0123456789" {} { clientSecret := some "sec" }).toOption.map
      (fun s0 =>
        let s2 := setClientSecret none none (startAppTokenRefresh (some ⟨"apptok", 0⟩) s0)
        let s3 := startAppTokenRefresh none s2
        (s2.clientSecret, countActive s2.appTimers, countActive s3.appTimers))
      = some (none, 1, 0) := rfl

/-- C5 amended: when a slot's renewal secret is absent, that slot's
start-refresh operation installs no timer, performs no transport call, and
leaves every field unchanged except that its initial defensive
`clearInterval` may cancel a leftover active timer, and a diagnostic is
appended to the log.  The operation is a total function (does not throw). -/
theorem c5_amended_start_without_secret (s : HandlerState)
    (resp : Option TokenResponse) :
    (s.refreshToken = none →
      startUserTokenRefresh resp s =
        { s with refreshToken := none,
                 userTimers := clearStoredSlot s.userTimers s.refreshTokenInterval,
                 log := s.log ++ [msgStartUserFailed] })
    ∧ (s.clientSecret = none →
      startAppTokenRefresh resp s =
        { s with clientSecret := none,
                 appTimers := clearStoredSlot s.appTimers s.appAccessTokenInterval,
                 log := s.log ++ [msgStartAppFailed] }) := by
  constructor
  · intro h
    unfold startUserTokenRefresh
    simp [h]
  · intro h
    unfold startAppTokenRefresh
    simp [h]

/-- C5 amended, witness: on a freshly built state with no secrets, both
start operations leave the timer id counters at zero (no timer created). -/
theorem c5_amended_start_without_secret_witness :
    (startUserTokenRefresh none ({ clientId := "0123456789" } : HandlerState)).userNextId = 0
      ∧ (startAppTokenRefresh none ({ clientId := "0123456789" } : HandlerState)).appNextId = 0 := by
  have h := c5_amended_start_without_secret { clientId := "0123456789" } none
  rw [h.1 rfl, h.2 rfl]
  exact ⟨rfl, rfl⟩

/-- C6: after any sequence of operations on a constructed handler (any mix
of `init`, start/stop, renew-once, the two setters, and timer ticks, each
with arbitrary transport outcomes), at most one timer is active per slot:
a new recurring timer is only installed after `clearInterval` on the
previously stored handle. -/
theorem c6_at_most_one_active_timer (cid : String) (tokens : Tokens)
    (options : HandlerOptions) (s0 : HandlerState) (ops : List Op)
    (h : mkTokenHandler cid tokens options = .ok s0) :
    countActive (runOps ops s0).userTimers ≤ 1
      ∧ countActive (runOps ops s0).appTimers ≤ 1 := by
  have hinv := inv_runOps ops s0 (inv_mkTokenHandler cid tokens options s0 h)
  exact ⟨hinv.1.2.2, hinv.2.2.2⟩

/-- C6 witness: two successive successful `startAppTokenRefresh` calls on a
handler built with a client secret leave at most one active timer per slot. -/
theorem c6_at_most_one_active_timer_witness :
    countActive (runOps [Op.startApp (some ⟨"a", 0⟩), Op.startApp (some ⟨"b", 0⟩)]
        { clientId := "0123456789", clientSecret := some "sec",
          log := [msgNoUserCapability] }).userTimers ≤ 1
      ∧ countActive (runOps [Op.startApp (some ⟨"a", 0⟩), Op.startApp (some ⟨"b", 0⟩)]
        { clientId := "0123456789", clientSecret := some "sec",
          log := [msgNoUserCapability] }).appTimers ≤ 1 :=
  c6_at_most_one_active_timer "0123456789" {} { clientSecret := some "sec" } _
    [Op.startApp (some ⟨"a", 0⟩), Op.startApp (some ⟨"b", 0⟩)] rfl

/-- C7: the claim says constructing with a refresh token and
`refreshUserAccessToken: true` makes `init()` perform exactly one
user-token renewal and install one recurring timer.  In the code the
constructor computes the opt-in flag from `tokens.refreshToken` but never
assigns `this._refreshToken`, so `init()`'s call to
`refreshUserAccessToken` bails out on the missing stored refresh token:
zero transport calls, no token stored, no timer installed. -/
theorem c7_init_performs_no_user_renewal :
    (mkTokenHandler "0123456789" { refreshToken := some "refreshtok" }
        { refreshUserAccessToken := some true }).toOption.map
      (fun s0 =>
        let s1 := init none (some ⟨"usertok", 5000⟩) s0
        (s0.initUserRefresh, s0.refreshToken, s1.userCalls, s1.userAccessToken,
          s1.refreshTokenInterval, countActive s1.userTimers))
      = some (true, none, 0, none, none, 0) := rfl

/-- C8: construction fails with the zod `ValidationError` exactly when the
identifier is shorter than 10 characters; with a valid identifier and no
tokens, secrets or flags at all, construction succeeds with the
no-credentials diagnostic as its only log entry, performs no transport
call, installs no timer, and a subsequent `init` (with any transport
oracle) is the identity on the state. -/
theorem c8_ctor_validation_and_bare_init_noop :
    (∀ (cid : String) (tokens : Tokens) (options : HandlerOptions),
        (mkTokenHandler cid tokens options).toOption = none ↔ cid.length < 10)
    ∧ (∀ cid : String, ¬ cid.length < 10 →
        ∃ s0, mkTokenHandler cid {} {} = .ok s0
          ∧ s0.log = [msgNoAnyToken]
          ∧ s0.userCalls = 0 ∧ s0.appCalls = 0
          ∧ s0.userTimers = [] ∧ s0.appTimers = []
          ∧ s0.refreshTokenInterval = none ∧ s0.appAccessTokenInterval = none
          ∧ ∀ r1 r2, init r1 r2 s0 = s0) := by
  constructor
  · intro cid tokens options
    unfold mkTokenHandler
    by_cases h : cid.length < 10
    · simp [h, Except.toOption]
    · simp [h, Except.toOption]
  · intro cid h
    refine ⟨{ clientId := cid, log := [msgNoAnyToken] }, ?_, rfl, rfl, rfl, rfl,
      rfl, rfl, rfl, ?_⟩
    · unfold mkTokenHandler
      rw [if_neg h]
      rfl
    · intro r1 r2
      rfl

/-- C8 witness: "short" (5 chars) is rejected, "0123456789" (10 chars) is
accepted with the documented bare-construction behavior. -/
theorem c8_ctor_validation_witness :
    ((mkTokenHandler "short" {} {}).toOption = none ↔ "short".length < 10)
    ∧ (∃ s0, mkTokenHandler "0123456789" {} {} = .ok s0
        ∧ s0.log = [msgNoAnyToken]
        ∧ s0.userCalls = 0 ∧ s0.appCalls = 0
        ∧ s0.userTimers = [] ∧ s0.appTimers = []
        ∧ s0.refreshTokenInterval = none ∧ s0.appAccessTokenInterval = none
        ∧ ∀ r1 r2, init r1 r2 s0 = s0) :=
  ⟨c8_ctor_validation_and_bare_init_noop.1 "short" {} {},
    c8_ctor_validation_and_bare_init_noop.2 "0123456789" (by decide)⟩

/-- C9: `renewAppAccessToken` / `renewUserAccessToken` perform at most one
transport call and, on success, replace only their own slot's cached token;
they never install, cancel or otherwise disturb any timer (both ledgers,
both handles and both id counters unchanged), and leave the renewal
secrets, the other slot's token, and the other slot's call counter
untouched. -/
theorem c9_renew_single_shot_frame (s : HandlerState)
    (resp : Option TokenResponse) :
    ((renewAppAccessToken resp s).userAccessToken = s.userAccessToken
      ∧ (renewAppAccessToken resp s).refreshToken = s.refreshToken
      ∧ (renewAppAccessToken resp s).clientSecret = s.clientSecret
      ∧ (renewAppAccessToken resp s).appTimers = s.appTimers
      ∧ (renewAppAccessToken resp s).userTimers = s.userTimers
      ∧ (renewAppAccessToken resp s).appAccessTokenInterval = s.appAccessTokenInterval
      ∧ (renewAppAccessToken resp s).refreshTokenInterval = s.refreshTokenInterval
      ∧ (renewAppAccessToken resp s).appNextId = s.appNextId
      ∧ (renewAppAccessToken resp s).userNextId = s.userNextId
      ∧ (renewAppAccessToken resp s).userCalls = s.userCalls
      ∧ (renewAppAccessToken resp s).appCalls ≤ s.appCalls + 1
      ∧ (renewAppAccessToken resp s).appAccessToken =
          (match s.clientSecret, resp with
           | some _, some r => some r.accessToken
           | _, _ => s.appAccessToken))
    ∧ ((renewUserAccessToken resp s).appAccessToken = s.appAccessToken
      ∧ (renewUserAccessToken resp s).refreshToken = s.refreshToken
      ∧ (renewUserAccessToken resp s).clientSecret = s.clientSecret
      ∧ (renewUserAccessToken resp s).appTimers = s.appTimers
      ∧ (renewUserAccessToken resp s).userTimers = s.userTimers
      ∧ (renewUserAccessToken resp s).appAccessTokenInterval = s.appAccessTokenInterval
      ∧ (renewUserAccessToken resp s).refreshTokenInterval = s.refreshTokenInterval
      ∧ (renewUserAccessToken resp s).appNextId = s.appNextId
      ∧ (renewUserAccessToken resp s).userNextId = s.userNextId
      ∧ (renewUserAccessToken resp s).appCalls = s.appCalls
      ∧ (renewUserAccessToken resp s).userCalls ≤ s.userCalls + 1
      ∧ (renewUserAccessToken resp s).userAccessToken =
          (match s.refreshToken, resp with
           | some _, some r => some r.accessToken
           | _, _ => s.userAccessToken)) := by
  constructor
  · cases hcs : s.clientSecret <;> cases resp <;> simp [renewApp_eq, hcs]
  · cases hrt : s.refreshToken <;> cases resp <;> simp [renewUser_eq, hrt]

/-- C10: the claim says the constructor performs no renewal and no timer
installation and stores exactly the supplied tokens and secrets.  The
first parts hold, but the user-slot renewal secret is dropped: with
`tokens.refreshToken = "refreshtok"` supplied, the constructed state's
stored refresh token is `undefined` (the source never assigns
`this._refreshToken`). -/
theorem c10_ctor_state_drops_refresh_token :
    (mkTokenHandler "0123456789"
        { userAccessToken := some "usertoken", appAccessToken := some "apptoken",
          refreshToken := some "refreshtok" }
        { clientSecret := some "clientsec", refreshAppAccessToken := some true,
          refreshUserAccessToken := some true }).toOption.map
      (fun s => (s.refreshToken, s.userAccessToken, s.appAccessToken, s.clientSecret,
        s.refreshTokenInterval, s.appAccessTokenInterval, s.userTimers, s.appTimers,
        s.userCalls, s.appCalls))
      = some (none, some "usertoken", some "apptoken", some "clientsec",
          none, none, [], [], 0, 0) := rfl
